import Mathlib

/-!
Verification of the Cat-Alert-Tool repository against its specification.

The development shallowly embeds the Python modules `cat_alert_tool/fetch.py`,
`cat_alert_tool/db.py`, `cat_alert_tool/cat.py` and `cat_alert_tool/constants.py`.
Python strings are Lean `String`/`List Char`; Python `int` is `Int` (digit runs
parsed from text are `Nat`); fallible code returns `Except PyErr`; the sqlite
table is a list of typed rows together with its column-descriptor list; the
pypubsub event bus is an explicit event trace.

Python places string values and tuple values in the same `set`; the inductive
`PyVal` embeds the fragment of Python's value universe that actually flows
through the identifier sets of `db.py` (bare strings from `Cat.id`, integers
from the `id` column, `None`, and the 1-tuples produced by `Cursor.fetchall`),
with Python's cross-type disequality reflected by constructor disjointness.
-/

/-- Fragment of the Python value universe used by the identifier sets of
`db.py`: strings, ints, `None`, and 1-tuples as returned by `fetchall`. -/
inductive PyVal where
  | pstr (s : String)
  | pint (n : Int)
  | pnone
  | ptup1 (v : PyVal)
deriving DecidableEq

/-- Python exceptions that the embedded code can raise. -/
inductive PyErr where
  | indexError
  | keyError
  | programmingError
  | interfaceError
  | operationalError
deriving DecidableEq

instance {ε α : Type} [DecidableEq ε] [DecidableEq α] : DecidableEq (Except ε α) := by
  intro x y
  cases x <;> cases y
  case error.error a b =>
    exact if h : a = b then .isTrue (by rw [h]) else .isFalse (by intro hc; cases hc; exact h rfl)
  case ok.ok a b =>
    exact if h : a = b then .isTrue (by rw [h]) else .isFalse (by intro hc; cases hc; exact h rfl)
  case error.ok a b => exact .isFalse (by intro hc; cases hc)
  case ok.error a b => exact .isFalse (by intro hc; cases hc)

/-! ## `constants.py` -/

/-- `constants.py`: `DAYS_PER_YEAR`. -/
def DAYS_PER_YEAR : Int := 365

/-- `constants.py`: `DAYS_PER_MONTH`. -/
def DAYS_PER_MONTH : Int := 30

/-- `constants.py`: `DAYS_PER_WEEK`. -/
def DAYS_PER_WEEK : Int := 7

/-! ## `fetch.py`: data model -/

/-- `fetch.py` `class Gender(Enum)`: members named `male` and `female`, with
values `"male"` and `"female"`. -/
inductive Gender where
  | male
  | female
deriving DecidableEq

/-- `Gender(value)` lookup by enum value, as in `parse_gender_string`
(`ValueError` is modelled as `none` since the caller catches it). -/
def Gender.byValue (s : String) : Option Gender :=
  if s = "male" then some .male else if s = "female" then some .female else none

/-- `Gender[name]` lookup by member name, as used in `db.py` `_row_to_cat`.
The member names of `fetch.py`'s `Gender` are the lowercase strings
`"male"` and `"female"`. -/
def Gender.byMemberName (s : String) : Option Gender :=
  if s = "male" then some .male else if s = "female" then some .female else none

/-- `fetch.py` `class Cat`: one parsed listing.  `id` is a `PyVal` because
`db.py` `_row_to_cat` assigns the integer `id` column to this attribute,
while the parser assigns strings. -/
structure Cat where
  url : String
  image : String
  name : String
  id : PyVal
  gender : Option Gender
  color : String
  breed : String
  age : Int
deriving DecidableEq

/-- `Cat.__init__`: all attributes start at their empty defaults. -/
def Cat.init : Cat :=
  { url := "", image := "", name := "", id := .pstr "", gender := none,
    color := "", breed := "", age := 0 }

/-! ## String helpers (embedding the Python `str` operations used) -/

/-- ASCII fragment of Python's `\s` / `str.strip` whitespace set. -/
def pySpace (c : Char) : Bool :=
  c = ' ' || c = '\t' || c = '\n' || c = '\r' || c = '\x0b' || c = '\x0c'

/-- `str.strip()` on a character list. -/
def pyStrip (l : List Char) : List Char :=
  ((l.dropWhile pySpace).reverse.dropWhile pySpace).reverse

/-- `str.lower()` (ASCII fragment) on a character list. -/
def pyLower (l : List Char) : List Char := l.map Char.toLower

/-- `str.upper()` (ASCII fragment) on a string. -/
def pyUpper (s : String) : String := String.mk (s.data.map Char.toUpper)

/-- `str.replace("old", "")`: delete every non-overlapping occurrence of
the literal substring `old`, scanning left to right. -/
def replaceOld : List Char → List Char
  | 'o' :: 'l' :: 'd' :: rest => replaceOld rest
  | c :: rest => c :: replaceOld rest
  | [] => []

/-- Numeric value of a run of ASCII digits, as `int()` computes it. -/
def digitsVal (l : List Char) : Nat :=
  l.foldl (fun acc c => 10 * acc + (c.toNat - '0'.toNat)) 0

/-! ## `fetch.py` `parse_cat_age_string`

The regexes `(\d+)\s*year(?:s)?`, `(\d+)\s*month(?:s)?`, `(\d+)\s*week(?:s)?`
are embedded directly.  `re.search` tries successive start positions left to
right; at a digit, `(\d+)` greedily captures the whole digit run (backtracking
into the run can never succeed because `\s` and the unit's first letter match
no digit), then `\s*` greedily skips whitespace (again without useful
backtracking), then the unit word must follow literally.  The optional
trailing `s` does not affect the captured group. -/

/-- Try to match `(\d+)\s*<unit>` at the head of `l`. -/
def matchNumUnitAt (unit : List Char) (l : List Char) : Option Nat :=
  match l with
  | [] => none
  | c :: _ =>
    if c.isDigit then
      let ds := l.takeWhile Char.isDigit
      let rest := (l.dropWhile Char.isDigit).dropWhile pySpace
      if unit.isPrefixOf rest then some (digitsVal ds) else none
    else none

/-- `re.search` for `(\d+)\s*<unit>`: leftmost match's captured quantity. -/
def searchNumUnit (unit : List Char) : List Char → Option Nat
  | [] => none
  | c :: rest =>
    match matchNumUnitAt unit (c :: rest) with
    | some n => some n
    | none => searchNumUnit unit rest

/-- The normalised text that `parse_cat_age_string` searches:
`cat_age_string.replace("old", "").strip().lower()`. -/
def ageNorm (s : String) : List Char := pyLower (pyStrip (replaceOld s.data))

/-- `fetch.py` `parse_cat_age_string`: age in days parsed from free text. -/
def parse_cat_age_string (s : String) : Int :=
  let days_per_year : Int := 365
  let days_per_month : Int := 30
  let days_per_week : Int := 7
  let t := ageNorm s
  let age : Int := 0
  let age := match searchNumUnit "year".data t with
    | some n => age + (n : Int) * days_per_year
    | none => age
  let age := match searchNumUnit "month".data t with
    | some n => age + (n : Int) * days_per_month
    | none => age
  let age := match searchNumUnit "week".data t with
    | some n => age + (n : Int) * days_per_week
    | none => age
  age

/-! ## `cat.py` / `fetch.py` `Cat.get_human_readable_age` -/

/-- One pluralised component, `f"{n} <unit>{pl}"` with
`pl = 's' if n != 1 else ''`. -/
def agePart (n : Int) (unit : String) : String :=
  toString n ++ unit ++ (if n != 1 then "s" else "")

/-- `", ".join(parts)`. -/
def joinParts : List String → String
  | [] => ""
  | [p] => p
  | p :: q :: rest => p ++ ", " ++ joinParts (q :: rest)

/-- The `parts` list built by `get_human_readable_age`: greedy
largest-unit-first decomposition with Python's floor `//` and `%`
(`Int.fdiv` / `Int.fmod`), keeping only non-zero components. -/
def ageParts (age : Int) : List String :=
  let years := age.fdiv DAYS_PER_YEAR
  let d1 := age.fmod DAYS_PER_YEAR
  let months := d1.fdiv DAYS_PER_MONTH
  let d2 := d1.fmod DAYS_PER_MONTH
  let weeks := d2.fdiv DAYS_PER_WEEK
  let d3 := d2.fmod DAYS_PER_WEEK
  (if 0 < years then [agePart years " year"] else [])
    ++ (if 0 < months then [agePart months " month"] else [])
    ++ (if 0 < weeks then [agePart weeks " week"] else [])
    ++ (if 0 < d3 then [agePart d3 " day"] else [])

/-- `Cat.get_human_readable_age` (identical bodies in `cat.py` and
`fetch.py`), as a function of `self.age`. -/
def get_human_readable_age (age : Int) : String :=
  if 0 < (ageParts age).length then joinParts (ageParts age) else ""

/-- The method form on `Cat`. -/
def Cat.human_readable_age (c : Cat) : String := get_human_readable_age c.age

/-! ## `fetch.py` `parse_name_id_string`

Embeds `re.match(r"^(.*)\s\((.*)\)$", s)`.  `.` matches any character except
`'\n'`; `$` also matches just before a single trailing `'\n'`; the first
greedy `(.*)` wins the longest prefix for which the rest of the pattern still
matches, and for a fixed split the inner `(.*)\)$` is forced (the closing
parenthesis must be the final character). -/

/-- `True` when the fragment contains no newline (what `.` may cross). -/
def noNewline (l : List Char) : Bool := l.all (fun c => c != '\n')

/-- Try the split with group 1 of length `j`: the rest of the text must be a
single `\s` character, then `'('`, then group 2, then a final `')'`. -/
def nameIdCheck (t : List Char) (j : Nat) : Option (List Char × List Char) :=
  match t.drop j with
  | ws :: '(' :: rest =>
    if pySpace ws && noNewline (t.take j) && (rest.getLast? == some ')')
        && noNewline rest.dropLast then
      some (t.take j, rest.dropLast)
    else none
  | _ => none

/-- Greedy group 1: the largest split length that matches. -/
def nameIdFind (t : List Char) : Option (List Char × List Char) :=
  ((List.range (t.length + 1)).reverse).findSome? (fun j => nameIdCheck t j)

/-- `fetch.py` `parse_name_id_string`: on a match, name is lowercased and ID
is uppercased; on a non-match both are empty. -/
def parse_name_id_string (s : String) : String × String :=
  let t := if s.data.getLast? == some '\n' then s.data.dropLast else s.data
  match nameIdFind t with
  | some (a, b) => (String.mk (a.map Char.toLower), String.mk (b.map Char.toUpper))
  | none => ("", "")

/-- `fetch.py` `parse_gender_string`: `Gender(gender_string.lower())`, with
`ValueError` caught and turned into `None`. -/
def parse_gender_string (s : String) : Option Gender :=
  Gender.byValue (String.mk (pyLower s.data))

/-! ## `fetch.py` `parse_cat_div` and the parse phase of `get_cats`

A "result card" (`div.gridResult`) is embedded as the data BeautifulSoup
extracts from it: the `href` of the first anchor having one, the `src` of the
first image having one, and the `get_text(strip=True)` texts of its
`div.gridText` children, in document order. -/

/-- One `div.gridResult` fragment as seen through BeautifulSoup. -/
structure CatDiv where
  aHref : Option String
  imgSrc : Option String
  textFields : List String
deriving DecidableEq

/-- `fetch.py` `parse_cat_div`.  The source indexes `text_fields[1]` through
`text_fields[5]` guarded only by `if text_fields:`, so a non-empty field list
shorter than 6 raises `IndexError`. -/
def parse_cat_div (base_url : String) (d : CatDiv) : Except PyErr Cat :=
  let url := match d.aHref with
    | some h => base_url ++ h
    | none => ""
  let image := match d.imgSrc with
    | some s => base_url ++ s
    | none => ""
  match d.textFields with
  | [] => .ok { Cat.init with url := url, image := image }
  | _ :: t1 :: t2 :: t3 :: t4 :: t5 :: _ =>
    let nm := parse_name_id_string t1
    .ok { url := url, image := image, name := nm.1, id := .pstr nm.2,
          gender := parse_gender_string t2,
          color := String.mk (pyLower t3.data),
          breed := String.mk (pyLower t4.data),
          age := parse_cat_age_string t5 }
  | _ => .error .indexError

/-- The parse loop at the end of `fetch.py` `get_cats`: each fragment is
parsed and appended; an exception raised inside the loop propagates and
discards everything. -/
def parse_cats (base_url : String) : List CatDiv → Except PyErr (List Cat)
  | [] => .ok []
  | d :: ds =>
    match parse_cat_div base_url d with
    | .error e => .error e
    | .ok c =>
      match parse_cats base_url ds with
      | .error e => .error e
      | .ok cs => .ok (c :: cs)

/-! ## The fetch/retry phase of `fetch.py` `get_cats`

The `while attempts < fetch_attempts` loop is embedded with the remaining
iteration count as structural fuel.  One attempt either raises inside
`requests.get` (no response assigned), gets a response whose
`raise_for_status` raises (response assigned), or succeeds and breaks.
After a failure the code logs, sleeps `fetch_sleep`, and increments
`attempts` - the sleep is unconditional, it also happens after the final
failed attempt.  After the loop, `response is None or attempts ==
fetch_attempts` yields the failure value `[]`. -/

/-- Outcome of one attempt against the remote source. -/
inductive AttemptResult where
  | netError
  | badStatus
  | success
deriving DecidableEq

/-- Observable events of the retry loop. -/
inductive FetchEvent where
  | attempt
  | sleep
deriving DecidableEq

/-- The retry loop: `fuel` is `fetch_attempts - attempts`; returns the event
trace, the final `attempts` counter and whether a response object is bound. -/
def fetchLoop (oracle : Nat → AttemptResult) :
    Nat → Nat → Option Unit → List FetchEvent × Nat × Option Unit
  | 0, attempts, response => ([], attempts, response)
  | fuel + 1, attempts, response =>
    match oracle attempts with
    | .success => ([.attempt], attempts, some ())
    | .netError =>
      let r := fetchLoop oracle fuel (attempts + 1) response
      (.attempt :: .sleep :: r.1, r.2)
    | .badStatus =>
      let r := fetchLoop oracle fuel (attempts + 1) (some ())
      (.attempt :: .sleep :: r.1, r.2)

/-- The fetch phase of `get_cats`: the event trace, and `false` when the
function takes the `return []` failure path (no exception escapes). -/
def getCatsFetch (fetch_attempts : Nat) (oracle : Nat → AttemptResult) :
    List FetchEvent × Bool :=
  let r := fetchLoop oracle fetch_attempts 0 none
  (r.1, !(r.2.2.isNone || r.2.1 == fetch_attempts))

/-- A source for which every attempt fails at the network level. -/
def alwaysFail : Nat → AttemptResult := fun _ => .netError

/-- The trace an always-failing source produces: `n` failed attempts, each
followed by a sleep. -/
def retryTrace : Nat → List FetchEvent
  | 0 => []
  | n + 1 => .attempt :: .sleep :: retryTrace n

/-! ## `db.py` / `constants.py`: the Store

A sqlite column descriptor is one `PRAGMA table_info` row
`(cid, name, type, notnull, dflt_value, pk)`.  The `cats` table is embedded
as its descriptor list plus its rows (rows typed by the canonical column
set); a missing table is `none`, and `PRAGMA table_info` on a missing table
yields `[]`.  The connection/cursor pair of `CatDB` is a single flag since
the class always sets and clears them together. -/

/-- One `PRAGMA table_info` row.  The field `ctype` is the declared column
type (third tuple slot). -/
structure ColDesc where
  cid : Int
  name : String
  ctype : String
  notnull : Int
  dflt_value : Option String
  pk : Int
deriving DecidableEq

/-- `constants.py` `DB_SCHEMA`: the expected descriptor list. -/
def DB_SCHEMA : List ColDesc :=
  [ ⟨0, "id", "INTEGER", 0, none, 1⟩,
    ⟨1, "pet_id", "TEXT", 0, none, 0⟩,
    ⟨2, "name", "TEXT", 0, none, 0⟩,
    ⟨3, "gender", "TEXT", 0, none, 0⟩,
    ⟨4, "color", "TEXT", 0, none, 0⟩,
    ⟨5, "breed", "TEXT", 0, none, 0⟩,
    ⟨6, "age", "INTEGER", 0, none, 0⟩,
    ⟨7, "url", "TEXT", 0, none, 0⟩,
    ⟨8, "image", "TEXT", 0, none, 0⟩ ]

/-- One persisted row of the `cats` table.  `id` is the integer primary key
(never NULL); every other column is nullable. -/
structure Row where
  id : Int
  pet_id : Option String
  name : Option String
  gender : Option String
  color : Option String
  breed : Option String
  age : Option Int
  url : Option String
  image : Option String
deriving DecidableEq

/-- The `cats` table: its live column descriptors and its rows. -/
structure CatsTable where
  schema : List ColDesc
  rows : List Row
deriving DecidableEq

/-- State of a `db.py` `CatDB` object: whether a connection/cursor is live,
and the `cats` table of the backing database file (if it exists). -/
structure CatDB where
  cur : Bool
  table : Option CatsTable
deriving DecidableEq

/-- `PRAGMA table_info(cats)`: `[]` when the table is missing. -/
def tableInfo (db : CatDB) : List ColDesc :=
  match db.table with
  | none => []
  | some t => t.schema

/-- Rows of the `cats` table (`[]` when the table is missing). -/
def tableRows (db : CatDB) : List Row :=
  match db.table with
  | none => []
  | some t => t.rows

/-- The set of `pet_id` values persisted in a table (NULLs dropped), i.e.
the identifier set the specification speaks about. -/
def tablePetIds (t : CatsTable) : Finset String :=
  (t.rows.filterMap Row.pet_id).toFinset

/-- `CatDB._connect_to_db`: a no-op when already connected. -/
def connect_to_db (db : CatDB) : CatDB :=
  if db.cur then db else { db with cur := true }

/-- `CatDB._drop_db` (`DROP TABLE IF EXISTS cats`): a warning no-op without
a cursor. -/
def drop_db (db : CatDB) : CatDB :=
  if db.cur then { db with table := none } else db

/-- `CatDB._initialize_db` (`CREATE TABLE IF NOT EXISTS cats (...)`): a
warning no-op without a cursor; creates the empty table with exactly the
expected columns when it does not exist (the repository's own test
`test_initialize_db_creates_valid_db` asserts that the created table's
`PRAGMA table_info` equals `DB_SCHEMA`). -/
def create_db_table (db : CatDB) : CatDB :=
  if db.cur then
    match db.table with
    | some _ => db
    | none => { db with table := some ⟨DB_SCHEMA, []⟩ }
  else db

/-- `CatDB._is_db_schema_valid`: `False` without a cursor, else compares
`PRAGMA table_info(cats)` with `DB_SCHEMA`. -/
def is_db_schema_valid (db : CatDB) : Bool :=
  if db.cur then decide (tableInfo db = DB_SCHEMA) else false

/-- `CatDB.initialize_db`: connect; if the live schema is not valid, drop
and recreate the table. -/
def init_db (db : CatDB) : CatDB :=
  let db1 := connect_to_db db
  if is_db_schema_valid db1 then db1 else create_db_table (drop_db db1)

/-- `CatDB.get_cat_ids`: without a cursor, a warning and the empty set;
otherwise `set(fetchall())` of `SELECT pet_id FROM cats` - a set whose
elements are the 1-TUPLES returned by `fetchall`, not bare strings.
Executing against a missing table raises `sqlite3.OperationalError`.
A Python `set` is embedded as a duplicate-free list; its element order is
an unspecified iteration-order artifact and no theorem depends on it. -/
def get_cat_ids (db : CatDB) : Except PyErr (List PyVal) :=
  if db.cur then
    match db.table with
    | none => .error .operationalError
    | some t =>
      .ok ((t.rows.map (fun r =>
        PyVal.ptup1 (match r.pet_id with
          | some s => PyVal.pstr s
          | none => PyVal.pnone))).dedup)
  else .ok []

/-- `db.py` `CatDB._row_to_cat`.  `row.get("id") or ""` reads the INTEGER
primary-key column (the `SELECT *` dictionary contains the key `"id"`), so
the resulting `Cat.id` is the integer row id, not the `pet_id` text.
`Gender[gender.upper()]` looks members up by NAME; `fetch.py`'s `Gender`
member names are lowercase, so any non-NULL gender text raises `KeyError`. -/
def row_to_cat (r : Row) : Except PyErr Cat :=
  match r.gender with
  | some s =>
    (match Gender.byMemberName (pyUpper s) with
     | some g =>
       .ok { url := r.url.getD "", image := r.image.getD "", name := r.name.getD "",
             id := if r.id = 0 then .pstr "" else .pint r.id,
             gender := some g, color := r.color.getD "", breed := r.breed.getD "",
             age := r.age.getD 0 }
     | none => .error .keyError)
  | none =>
    .ok { url := r.url.getD "", image := r.image.getD "", name := r.name.getD "",
          id := if r.id = 0 then .pstr "" else .pint r.id,
          gender := none, color := r.color.getD "", breed := r.breed.getD "",
          age := r.age.getD 0 }

/-- The row set matching the single bound parameter of
`SELECT * FROM cats WHERE pet_id = ?`.  A NULL parameter matches nothing
(SQL three-valued `=`); a string matches rows with that `pet_id`; an
integer is compared after conversion to the column's TEXT affinity. -/
def rowsMatching (t : CatsTable) (v : PyVal) : List Row :=
  match v with
  | .pstr s => t.rows.filter (fun r => r.pet_id == some s)
  | .pint n => t.rows.filter (fun r => r.pet_id == some (toString n))
  | _ => []

/-- `db.py` `CatDB.get_cats`: without a cursor, a warning and the empty
tuple; an empty identifier set returns `()` before any query.  Otherwise
the single-placeholder query is prepared (`OperationalError` if the table
is missing), the parameter list `list(cat_ids)` is bound
(`ProgrammingError` unless it has exactly 1 element, `InterfaceError` if
that element is a tuple), and the matching rows go through `_row_to_cat`. -/
def get_cats (db : CatDB) (cat_ids : List PyVal) : Except PyErr (List Cat) :=
  if db.cur then
    if cat_ids = [] then .ok []
    else
      match db.table with
      | none => .error .operationalError
      | some t =>
        match cat_ids.dedup with
        | [v] =>
          match v with
          | .ptup1 _ => .error .interfaceError
          | _ => (rowsMatching t v).mapM row_to_cat
        | _ => .error .programmingError
  else .ok []

/-! ## `db.py` `CatDB.process_cats`: the Reconciler

Notification events are the `pub.sendMessage` calls; they are collected in
order, and events published before an exception survive it.  The function
contains no INSERT/UPDATE/DELETE statement, so the database state is
returned unchanged on the non-raising path. -/

/-- A pypubsub notification event. -/
inductive Event where
  | catsNew (cats : List Cat)
  | catsAdopted (cats : List Cat)
deriving DecidableEq

/-- `db.py` `CatDB.process_cats`: returns the events published and either
the pair of diff sets plus the (unmodified) database, or the exception that
escaped. -/
def process_cats (db : CatDB) (cats : List Cat) :
    List Event × Except PyErr (List PyVal × List PyVal × CatDB) :=
  let cat_ids := (cats.map Cat.id).dedup
  match get_cat_ids db with
  | .error e => ([], .error e)
  | .ok curr_cat_ids =>
    let new_cat_ids := cat_ids.filter (fun v => decide (v ∉ curr_cat_ids))
    let adopted_cat_ids := curr_cat_ids.filter (fun v => decide (v ∉ cat_ids))
    let ev1 : List Event :=
      if new_cat_ids ≠ [] then
        [.catsNew (cats.filter (fun c => decide (c.id ∈ new_cat_ids)))]
      else []
    if adopted_cat_ids ≠ [] then
      match get_cats db adopted_cat_ids with
      | .error e => (ev1, .error e)
      | .ok adopted_cats =>
        (ev1 ++ [.catsAdopted adopted_cats], .ok (new_cat_ids, adopted_cat_ids, db))
    else (ev1, .ok (new_cat_ids, adopted_cat_ids, db))

/-! ## Concrete sample stores and records used by the theorems -/

/-- A row holding only a primary key and a `pet_id`. -/
def idRow (pk : Int) (pid : String) : Row :=
  { id := pk, pet_id := some pid, name := none, gender := none, color := none,
    breed := none, age := none, url := none, image := none }

/-- A parsed record carrying only an identifier. -/
def idCat (pid : String) : Cat := { Cat.init with id := .pstr pid }

/-- A connected store persisting exactly the identifiers `A` and `B`. -/
def dbAB : CatDB := ⟨true, some ⟨DB_SCHEMA, [idRow 1 "A", idRow 2 "B"]⟩⟩

/-- A connected store persisting exactly the identifier `A`. -/
def dbA : CatDB := ⟨true, some ⟨DB_SCHEMA, [idRow 1 "A"]⟩⟩

/-- A connected store persisting a single row with `pet_id = 'A123456'`. -/
def dbSingle : CatDB := ⟨true, some ⟨DB_SCHEMA, [idRow 1 "A123456"]⟩⟩

/-- A connected store whose `cats` table is empty. -/
def dbEmpty : CatDB := ⟨true, some ⟨DB_SCHEMA, []⟩⟩

/-- A result card whose name/ID text `"Whiskers"` lacks the
`"<name> (<identifier>)"` shape. -/
def whiskersDiv : CatDiv :=
  ⟨none, none, ["hdr", "Whiskers", "male", "black", "tabby", "2 years"]⟩

/-- The record `parse_cat_div` produces from `whiskersDiv`. -/
def whiskersCat : Cat :=
  { url := "", image := "", name := "", id := .pstr "", gender := some .male,
    color := "black", breed := "tabby", age := 730 }

/-! ## Helper lemmas -/

/-- Closed form of `parse_cat_age_string`: the three unit patterns are
searched independently and the matched quantities (0 when a pattern has no
match) are summed with the fixed conversion constants. -/
theorem parse_cat_age_closed (s : String) :
    parse_cat_age_string s =
      ((searchNumUnit "year".data (ageNorm s)).getD 0 : Int) * 365
      + ((searchNumUnit "month".data (ageNorm s)).getD 0 : Int) * 30
      + ((searchNumUnit "week".data (ageNorm s)).getD 0 : Int) * 7 := by
  unfold parse_cat_age_string
  rcases hy : searchNumUnit "year".data (ageNorm s) with _ | y <;>
    rcases hm : searchNumUnit "month".data (ageNorm s) with _ | m <;>
      rcases hw : searchNumUnit "week".data (ageNorm s) with _ | w <;>
        simp [hy, hm, hw, Option.getD]

/-- The parsed age is never negative. -/
theorem parse_cat_age_nonneg (s : String) : 0 ≤ parse_cat_age_string s := by
  rw [parse_cat_age_closed s]
  have h1 : 0 ≤ ((searchNumUnit "year".data (ageNorm s)).getD 0 : Int) := Int.natCast_nonneg _
  have h2 : 0 ≤ ((searchNumUnit "month".data (ageNorm s)).getD 0 : Int) := Int.natCast_nonneg _
  have h3 : 0 ≤ ((searchNumUnit "week".data (ageNorm s)).getD 0 : Int) := Int.natCast_nonneg _
  omega

/-! ## Claim theorems -/

/-- C7: `parse_cat_age_string` strips the literal substring `old`, trims and
lowercases the rest, independently searches the year/month/week patterns and
sums the matched quantities times 365/30/7, yielding 0 when nothing matches;
`"2 years, 3 weeks old"` gives 751, `"old"` gives 0, `"5 months"` gives 150,
and the result is always non-negative. -/
theorem claim_C7_age_parsing (s : String) :
    0 ≤ parse_cat_age_string s
    ∧ parse_cat_age_string s =
        ((searchNumUnit "year".data (ageNorm s)).getD 0 : Int) * 365
        + ((searchNumUnit "month".data (ageNorm s)).getD 0 : Int) * 30
        + ((searchNumUnit "week".data (ageNorm s)).getD 0 : Int) * 7
    ∧ parse_cat_age_string "2 years, 3 weeks old" = 751
    ∧ parse_cat_age_string "old" = 0
    ∧ parse_cat_age_string "5 months" = 150 :=
  ⟨parse_cat_age_nonneg s, parse_cat_age_closed s, by decide, by decide, by decide⟩

/-- C1 (failing input): with prior identifiers `{A, B}` and current records
`[B, C]`, `process_cats` compares the bare strings `{"B", "C"}` with the
1-tuples `{("A",), ("B",)}` from `get_cat_ids`, so it publishes BOTH current
records as new, then crashes with `sqlite3.ProgrammingError` inside
`get_cats` (one `?` placeholder, two bound parameters) - and it contains no
write statement, so the store's identifier set can never become `{B, C}`. -/
theorem claim_C1_reconcile_failing :
    process_cats dbAB [idCat "B", idCat "C"]
      = ([.catsNew [idCat "B", idCat "C"]], .error .programmingError)
    ∧ get_cat_ids dbAB = .ok [.ptup1 (.pstr "A"), .ptup1 (.pstr "B")]
    ∧ tablePetIds ⟨DB_SCHEMA, [idRow 1 "A", idRow 2 "B"]⟩ = {"A", "B"}
    ∧ ([idCat "B", idCat "C"].map Cat.id).toFinset = {PyVal.pstr "B", PyVal.pstr "C"} := by
  refine ⟨by decide, by decide, by decide, by decide⟩

/-- C2 (failing input): a store persisting exactly `pet_id = 'A'` and a
current parse with the same single identifier `A`: instead of an empty diff
and no events, the code publishes a `cats.new` event for the already-stored
record and then raises `sqlite3.InterfaceError` (it binds the 1-tuple
`("A",)` as a SQL parameter). -/
theorem claim_C2_idempotence_failing :
    tablePetIds ⟨DB_SCHEMA, [idRow 1 "A"]⟩ = {"A"}
    ∧ ([idCat "A"].map Cat.id).toFinset = {PyVal.pstr "A"}
    ∧ process_cats dbA [idCat "A"] = ([.catsNew [idCat "A"]], .error .interfaceError) := by
  refine ⟨by decide, by decide, by decide⟩

/-- C3 (failing input): on a store persisting the single `pet_id`
`'A123456'`, `get_cat_ids` returns the set containing the 1-tuple
`('A123456',)` - an element that is not the string `'A123456'` - rather
than a set of strings. -/
theorem claim_C3_get_cat_ids_failing :
    get_cat_ids dbSingle = .ok [.ptup1 (.pstr "A123456")]
    ∧ tablePetIds ⟨DB_SCHEMA, [idRow 1 "A123456"]⟩ = {"A123456"}
    ∧ PyVal.ptup1 (PyVal.pstr "A123456") ≠ PyVal.pstr "A123456" := by
  refine ⟨by decide, by decide, by decide⟩

/-- C5 (failing input): the empty-input short-circuit does hold, but a
two-element identifier set raises `sqlite3.ProgrammingError` (one `?`
placeholder, two parameters), and even the singleton query returns a record
whose `id` attribute is the INTEGER primary key of the row, not the stored
`pet_id` identifier. -/
theorem claim_C5_get_cats_failing :
    get_cats dbAB [] = .ok []
    ∧ get_cats dbAB [.pstr "A", .pstr "B"] = .error .programmingError
    ∧ get_cats dbAB [.pstr "A"]
        = .ok [{ url := "", image := "", name := "", id := .pint 1, gender := none,
                 color := "", breed := "", age := 0 }]
    ∧ PyVal.pint 1 ≠ PyVal.pstr "A" := by
  refine ⟨by decide, by decide, by decide, by decide⟩

/-- A result card with an empty field list, or one with at least the six
fields the code indexes, parses without an exception, to a record with a
non-negative age. -/
theorem parse_cat_div_ok (b : String) (d : CatDiv)
    (h : d.textFields = [] ∨ 6 ≤ d.textFields.length) :
    ∃ c, parse_cat_div b d = .ok c ∧ 0 ≤ c.age := by
  obtain ⟨ah, ims, tf⟩ := d
  rcases h with h | h
  · simp only at h
    subst h
    exact ⟨_, rfl, by simp [Cat.init]⟩
  · simp only at h
    match tf, h with
    | t0 :: t1 :: t2 :: t3 :: t4 :: t5 :: rest, _ =>
      exact ⟨_, rfl, parse_cat_age_nonneg t5⟩

/-- C4 (amended): for every raw markup input in which each result-card
fragment has either no text fields or at least the six the code indexes,
`parse` returns a record list without raising, a failed pattern match on one
field degrades only that field, and every returned record has a
non-negative age. -/
theorem claim_C4_parse_total_amended (b : String) (doc : List CatDiv)
    (h : ∀ d ∈ doc, d.textFields = [] ∨ 6 ≤ d.textFields.length) :
    ∃ cats, parse_cats b doc = .ok cats ∧ ∀ c ∈ cats, 0 ≤ c.age := by
  induction doc with
  | nil => exact ⟨[], rfl, by simp⟩
  | cons d ds ih =>
    obtain ⟨c, hc, hca⟩ := parse_cat_div_ok b d (h d (by simp))
    obtain ⟨cs, hcs, hcsa⟩ := ih (fun d' hd' => h d' (by simp [hd']))
    refine ⟨c :: cs, ?_, ?_⟩
    · simp [parse_cats, hc, hcs]
    · intro x hx
      rcases List.mem_cons.mp hx with hx | hx
      · subst hx; exact hca
      · exact hcsa x hx

/-- C4 (counterexample): a result card carrying a single text field makes
the parse raise `IndexError` (`text_fields[1]` is out of range), so `parse`
does not return for every raw markup input. -/
theorem claim_C4_parse_counterexample :
    parse_cats "" [⟨none, none, ["x"]⟩] = .error .indexError := by decide

/-- Witness for C4: the well-formed card `whiskersDiv` parses successfully. -/
theorem claim_C4_witness :
    (∀ d ∈ [whiskersDiv], d.textFields = [] ∨ 6 ≤ d.textFields.length)
    ∧ ∃ cats, parse_cats "base" [whiskersDiv] = .ok cats ∧ ∀ c ∈ cats, 0 ≤ c.age :=
  ⟨by decide, claim_C4_parse_total_amended "base" [whiskersDiv] (by decide)⟩

/-- Against an always-failing source, the retry loop produces exactly one
sleep after every failed attempt (including the last one) and terminates
with no response and `attempts = fetch_attempts`. -/
theorem fetchLoop_alwaysFail (fuel attempts : Nat) :
    fetchLoop alwaysFail fuel attempts none = (retryTrace fuel, attempts + fuel, none) := by
  induction fuel generalizing attempts with
  | zero => simp [fetchLoop, retryTrace]
  | succ n ih =>
    simp [fetchLoop, alwaysFail, retryTrace, ih (attempts + 1)]
    omega

/-- Event counts of the always-failing trace. -/
theorem retryTrace_count (n : Nat) :
    (retryTrace n).count .attempt = n ∧ (retryTrace n).count .sleep = n := by
  induction n with
  | zero => simp [retryTrace]
  | succ n ih =>
    refine ⟨?_, ?_⟩ <;> simp [retryTrace, List.count_cons, ih.1, ih.2]

/-- C6 (amended): for every `maxAttempts ≥ 1` against an always-failing
source, exactly `maxAttempts` attempts occur, the configured delay is slept
after EVERY failed attempt - including the last one - and the call ends on
the `return []` failure path rather than with an exception. -/
theorem claim_C6_retry_amended (n : Nat) (_h : 1 ≤ n) :
    (getCatsFetch n alwaysFail).1 = retryTrace n
    ∧ (getCatsFetch n alwaysFail).1.count .attempt = n
    ∧ (getCatsFetch n alwaysFail).1.count .sleep = n
    ∧ (getCatsFetch n alwaysFail).2 = false := by
  have hl := fetchLoop_alwaysFail n 0
  refine ⟨?_, ?_, ?_, ?_⟩ <;>
    simp [getCatsFetch, hl, (retryTrace_count n).1, (retryTrace_count n).2]

/-- C6 (counterexample): with `maxAttempts = 3` the loop performs 3 attempts
but sleeps 3 times, not the 2 times that "no sleep after the last allowed
attempt" would give. -/
theorem claim_C6_retry_counterexample :
    (getCatsFetch 3 alwaysFail).1.count .attempt = 3
    ∧ ¬ ((getCatsFetch 3 alwaysFail).1.count .sleep = 3 - 1) := by decide

/-- Witness for C6 at `maxAttempts = 3`. -/
theorem claim_C6_witness :
    1 ≤ 3
    ∧ ((getCatsFetch 3 alwaysFail).1 = retryTrace 3
      ∧ (getCatsFetch 3 alwaysFail).1.count .attempt = 3
      ∧ (getCatsFetch 3 alwaysFail).1.count .sleep = 3
      ∧ (getCatsFetch 3 alwaysFail).2 = false) :=
  ⟨by decide, claim_C6_retry_amended 3 (by decide)⟩

/-- `_connect_to_db` always leaves a live cursor. -/
theorem connect_cur (db : CatDB) : (connect_to_db db).cur = true := by
  obtain ⟨c, t⟩ := db; cases c <;> rfl

/-- `_connect_to_db` never touches the table. -/
theorem connect_table (db : CatDB) : (connect_to_db db).table = db.table := by
  obtain ⟨c, t⟩ := db; cases c <;> rfl

/-- `PRAGMA table_info` is unaffected by connecting. -/
theorem tableInfo_connect (db : CatDB) : tableInfo (connect_to_db db) = tableInfo db := by
  obtain ⟨c, t⟩ := db; cases c <;> rfl

/-- C8: after `initialize_db` the live column descriptors equal `DB_SCHEMA`
exactly; when they differed beforehand (including a missing or unrelated
table) the table is dropped and recreated empty with exactly the expected
columns, and when they matched, the table - rows included - is untouched. -/
theorem claim_C8_init_db (db : CatDB) :
    tableInfo (init_db db) = DB_SCHEMA
    ∧ (tableInfo db ≠ DB_SCHEMA → (init_db db).table = some ⟨DB_SCHEMA, []⟩)
    ∧ (tableInfo db = DB_SCHEMA → (init_db db).table = db.table) := by
  have hvalid : is_db_schema_valid (connect_to_db db) = decide (tableInfo db = DB_SCHEMA) := by
    simp [is_db_schema_valid, connect_cur db, tableInfo_connect db]
  by_cases hv : tableInfo db = DB_SCHEMA
  · have hi : init_db db = connect_to_db db := by
      simp [init_db, hvalid, hv]
    refine ⟨?_, fun hne => absurd hv hne, fun _ => ?_⟩
    · rw [hi, tableInfo_connect db, hv]
    · rw [hi, connect_table db]
  · have hi : init_db db = create_db_table (drop_db (connect_to_db db)) := by
      simp [init_db, hvalid, hv]
    have hdrop : drop_db (connect_to_db db) = ⟨true, none⟩ := by
      obtain ⟨c, t⟩ := db
      cases c <;> simp [connect_to_db, drop_db]
    have hcreate : create_db_table (⟨true, none⟩ : CatDB) = ⟨true, some ⟨DB_SCHEMA, []⟩⟩ := rfl
    rw [hi, hdrop, hcreate]
    exact ⟨rfl, fun _ => rfl, fun he => absurd he hv⟩

/-- Witness for C8: a store opened against a file with no `cats` table is
recreated with exactly the expected columns and no rows. -/
theorem claim_C8_witness :
    tableInfo (⟨false, none⟩ : CatDB) ≠ DB_SCHEMA
    ∧ tableInfo (init_db ⟨false, none⟩) = DB_SCHEMA
    ∧ (init_db (⟨false, none⟩ : CatDB)).table = some ⟨DB_SCHEMA, []⟩ :=
  ⟨by decide, (claim_C8_init_db ⟨false, none⟩).1,
    (claim_C8_init_db ⟨false, none⟩).2.1 (by decide)⟩

/-- The joined string is at least as long as any of its parts. -/
theorem length_le_of_mem_joinParts {p : String} :
    ∀ {parts : List String}, p ∈ parts → p.length ≤ (joinParts parts).length := by
  intro parts
  induction parts with
  | nil => intro h; cases h
  | cons q rest ih =>
    intro h
    rcases List.mem_cons.mp h with h | h
    · subst h
      cases rest with
      | nil => simp [joinParts]
      | cons r rs =>
        simp only [joinParts, String.length_append]
        omega
    · cases rest with
      | nil => cases h
      | cons r rs =>
        have := ih h
        simp only [joinParts, String.length_append]
        omega

/-- A rendered component is at least as long as its unit word. -/
theorem length_le_agePart (n : Int) (u : String) : u.length ≤ (agePart n u).length := by
  unfold agePart
  split <;> simp only [String.length_append] <;> omega

/-- If some component is rendered, the rendered age is not empty. -/
theorem human_age_ne_empty (a : Int) (n : Int) (u : String)
    (hmem : agePart n u ∈ ageParts a) (hu : 0 < u.length) :
    get_human_readable_age a ≠ "" := by
  intro hc
  have hlen : 0 < (ageParts a).length :=
    List.length_pos.mpr (by intro h0; rw [h0] at hmem; cases hmem)
  unfold get_human_readable_age at hc
  rw [if_pos hlen] at hc
  have h1 := length_le_of_mem_joinParts hmem
  have h2 := length_le_agePart n u
  rw [hc] at h1
  have h3 : ("" : String).length = 0 := rfl
  omega

/-- C9: the human-readable rendering decomposes `ageDays` greedily
largest-unit-first with 365/30/7, joins the non-zero components with
comma-space and correct pluralisation, and renders zero - and only zero -
total age as the empty string; 751 days gives `"2 years, 3 weeks"`, 0 days
gives `""`, 1 day gives `"1 day"`. -/
theorem claim_C9_human_readable_age (a : Int) (h : 0 ≤ a) :
    (get_human_readable_age a = "" ↔ a = 0)
    ∧ get_human_readable_age 751 = "2 years, 3 weeks"
    ∧ get_human_readable_age 0 = ""
    ∧ get_human_readable_age 1 = "1 day"
    ∧ get_human_readable_age 365 = "1 year"
    ∧ get_human_readable_age 730 = "2 years" := by
  refine ⟨⟨?_, ?_⟩, by decide, by decide, by decide, by decide, by decide⟩
  · intro hEmpty
    by_cases h1 : 0 < a.fdiv 365
    · exact absurd hEmpty (human_age_ne_empty a (a.fdiv 365) " year"
        (by simp [ageParts, DAYS_PER_YEAR, DAYS_PER_MONTH, DAYS_PER_WEEK, h1]) (by decide))
    · by_cases h2 : 0 < (a.fmod 365).fdiv 30
      · exact absurd hEmpty (human_age_ne_empty a ((a.fmod 365).fdiv 30) " month"
          (by simp [ageParts, DAYS_PER_YEAR, DAYS_PER_MONTH, DAYS_PER_WEEK, h1, h2]) (by decide))
      · by_cases h3 : 0 < ((a.fmod 365).fmod 30).fdiv 7
        · exact absurd hEmpty (human_age_ne_empty a (((a.fmod 365).fmod 30).fdiv 7) " week"
            (by simp [ageParts, DAYS_PER_YEAR, DAYS_PER_MONTH, DAYS_PER_WEEK, h1, h2, h3]) (by decide))
        · by_cases h4 : 0 < ((a.fmod 365).fmod 30).fmod 7
          · exact absurd hEmpty (human_age_ne_empty a (((a.fmod 365).fmod 30).fmod 7) " day"
              (by simp [ageParts, DAYS_PER_YEAR, DAYS_PER_MONTH, DAYS_PER_WEEK, h1, h2, h3, h4]) (by decide))
          · have hy := Int.fdiv_nonneg h (by decide : (0:Int) ≤ 365)
            have e1 := Int.fdiv_add_fmod a 365
            have hr1 : 0 ≤ a.fmod 365 := by omega
            have hm := Int.fdiv_nonneg hr1 (by decide : (0:Int) ≤ 30)
            have e2 := Int.fdiv_add_fmod (a.fmod 365) 30
            have hr2 : 0 ≤ (a.fmod 365).fmod 30 := by omega
            have hw := Int.fdiv_nonneg hr2 (by decide : (0:Int) ≤ 7)
            have e3 := Int.fdiv_add_fmod ((a.fmod 365).fmod 30) 7
            omega
  · intro ha
    subst ha
    decide

/-- Witness for C9 at 751 days. -/
theorem claim_C9_witness :
    (0 : Int) ≤ 751 ∧ get_human_readable_age 751 = "2 years, 3 weeks" :=
  ⟨by decide, (claim_C9_human_readable_age 751 (by decide)).2.1⟩

/-- The name/ID pattern cannot match a text containing no `'('`. -/
theorem nameIdCheck_none_of_no_paren {t : List Char} (h : '(' ∉ t) (j : Nat) :
    nameIdCheck t j = none := by
  unfold nameIdCheck
  split
  · next ws rest heq =>
    exfalso
    apply h
    have hmem : '(' ∈ t.drop j := by rw [heq]; simp
    exact List.drop_subset j t hmem
  · rfl

/-- `findSome?` of an everywhere-`none` function is `none`. -/
theorem findSome?_eq_none_of_all_none {α β : Type} {f : α → Option β}
    (hf : ∀ x, f x = none) : ∀ l : List α, l.findSome? f = none := by
  intro l
  induction l with
  | nil => rfl
  | cons a l ih => simp [List.findSome?_cons, hf a, ih]

/-- Any name/ID text without a `'('` - hence not of the
`"<name> (<identifier>)"` form - parses to a pair of empty strings. -/
theorem parse_name_id_empty_of_no_paren (s : String) (h : '(' ∉ s.data) :
    parse_name_id_string s = ("", "") := by
  unfold parse_name_id_string
  have ht : nameIdFind (if s.data.getLast? == some '\n' then s.data.dropLast else s.data) = none := by
    unfold nameIdFind
    apply findSome?_eq_none_of_all_none
    intro j
    apply nameIdCheck_none_of_no_paren
    intro hc
    apply h
    split at hc
    · exact List.dropLast_subset s.data hc
    · exact hc
  simp only [ht]

/-- C10: a result card whose name/ID text is not of the
`"<name> (<identifier>)"` form parses to a record with an empty string
identifier; such records are kept in the parse result, and the empty
identifier enters the reconciliation diff as an ordinary key (here it shows
up in the new-identifier set and in the published `cats.new` event). -/
theorem claim_C10_empty_identifier :
    (∀ s : String, '(' ∉ s.data → parse_name_id_string s = ("", ""))
    ∧ parse_cats "base" [whiskersDiv] = .ok [whiskersCat]
    ∧ whiskersCat.id = .pstr ""
    ∧ process_cats dbEmpty [whiskersCat]
        = ([.catsNew [whiskersCat]], .ok ([.pstr ""], [], dbEmpty)) := by
  refine ⟨parse_name_id_empty_of_no_paren, by decide, by decide, by decide⟩

/-- Witness for C10 on the name/ID text `"Whiskers"`. -/
theorem claim_C10_witness :
    ('(' ∉ "Whiskers".data) ∧ parse_name_id_string "Whiskers" = ("", "") :=
  ⟨by decide, claim_C10_empty_identifier.1 "Whiskers" (by decide)⟩

/-- Witness for C7 at the input `"old"`. -/
theorem claim_C7_witness : 0 ≤ parse_cat_age_string "old" :=
  (claim_C7_age_parsing "old").1
